import Mathlib

/-!
Verification development for the Deliveroo backend core:
pricing engine, order validators, courier assignment, and payment
reconciliation.  Python `Decimal`/numeric arithmetic is embedded as exact
rational arithmetic over `ℚ`; the geo module's trigonometric float
arithmetic is embedded over `ℝ`.
-/

namespace Deliveroo

/-! ## Pricing engine (`app/services/pricing_service.py`, class `PricingService`)

Monetary amounts use Python `Decimal` (exact decimal arithmetic), embedded
here as `ℚ`.  Distances and weights arrive as Python floats; the claims are
about their mathematical values, so they are embedded as `ℚ` as well
(`Decimal(str(x))` is the identity under this reading). -/

def BASE_PRICE : ℚ := 150
def PRICE_PER_KM : ℚ := 30
def FREE_DISTANCE_KM : ℚ := 2
def PRICE_PER_KG : ℚ := 10
def FREE_WEIGHT_KG : ℚ := 5
def FRAGILE_CHARGE : ℚ := 50
def INSURANCE_CHARGE : ℚ := 100
def WEEKEND_MULTIPLIER : ℚ := 12/10
def EXPRESS_MULTIPLIER : ℚ := 15/10

/-- `PricingService.calculate_distance_price`. -/
def calculate_distance_price (distance_km : ℚ) : ℚ :=
  if distance_km ≤ FREE_DISTANCE_KM then BASE_PRICE
  else BASE_PRICE + (distance_km - FREE_DISTANCE_KM) * PRICE_PER_KM

/-- `PricingService.calculate_weight_price`. -/
def calculate_weight_price (weight_kg : ℚ) : ℚ :=
  if weight_kg ≤ FREE_WEIGHT_KG then 0
  else (weight_kg - FREE_WEIGHT_KG) * PRICE_PER_KG

/-- `PricingService.calculate_fragile_charge`. -/
def calculate_fragile_charge (is_fragile : Bool) : ℚ :=
  if is_fragile then FRAGILE_CHARGE else 0

/-- `PricingService.calculate_insurance_charge`. -/
def calculate_insurance_charge (needs_insurance : Bool) : ℚ :=
  if needs_insurance then INSURANCE_CHARGE else 0

/-- `PricingService.calculate_weekend_surcharge`. -/
def calculate_weekend_surcharge (is_weekend : Bool) (subtotal : ℚ) : ℚ :=
  if is_weekend then subtotal * (WEEKEND_MULTIPLIER - 1) else 0

/-- `PricingService.calculate_express_surcharge`. -/
def calculate_express_surcharge (is_express : Bool) (subtotal : ℚ) : ℚ :=
  if is_express then subtotal * (EXPRESS_MULTIPLIER - 1) else 0

/-- The dict returned by `PricingService.calculate_price_breakdown`
(the nested `extra_charges` dict repeats fields already present, except its
`total` entry, kept here as `extra_charges_total`). -/
structure PriceBreakdown where
  base_price : ℚ
  distance_price : ℚ
  weight_price : ℚ
  fragile_charge : ℚ
  insurance_charge : ℚ
  weekend_surcharge : ℚ
  express_surcharge : ℚ
  extra_charges_total : ℚ
  subtotal_before_multipliers : ℚ
  total_price : ℚ
  currency : String
  deriving Repr, DecidableEq

/-- `PricingService.calculate_price_breakdown`.  `is_weekend = none`
models the Python default `is_weekend=None`, in which case the source
consults the clock via `is_weekend_delivery()`; that ambient reading is
the explicit argument `weekend_now`. -/
def calculate_price_breakdown (weekend_now : Bool) (distance_km weight_kg : ℚ)
    (is_fragile needs_insurance is_express : Bool)
    (is_weekend : Option Bool) : PriceBreakdown :=
  let is_weekend := is_weekend.getD weekend_now
  let base_price := calculate_distance_price distance_km
  let weight_price := calculate_weight_price weight_kg
  let fragile_charge := calculate_fragile_charge is_fragile
  let insurance_charge := calculate_insurance_charge needs_insurance
  let subtotal := base_price + weight_price + fragile_charge + insurance_charge
  let weekend_surcharge := calculate_weekend_surcharge is_weekend subtotal
  let express_surcharge := calculate_express_surcharge is_express subtotal
  let extra_charges := fragile_charge + insurance_charge + weekend_surcharge + express_surcharge
  let total_price := subtotal + weekend_surcharge + express_surcharge
  { base_price := base_price
    distance_price := base_price
    weight_price := weight_price
    fragile_charge := fragile_charge
    insurance_charge := insurance_charge
    weekend_surcharge := weekend_surcharge
    express_surcharge := express_surcharge
    extra_charges_total := extra_charges
    subtotal_before_multipliers := subtotal
    total_price := total_price
    currency := "KES" }

/-- Python `int(q)`: truncation toward zero. -/
def pyInt (q : ℚ) : ℤ :=
  if q < 0 then -⌊-q⌋ else ⌊q⌋

/-- `PricingService.calculate_estimated_delivery_time`. -/
def calculate_estimated_delivery_time (distance_km : ℚ) (is_express : Bool) : ℤ :=
  let base_minutes := (distance_km / 30) * 60
  let preparation_time : ℚ := 15
  let base_minutes := if is_express then base_minutes * (7/10) else base_minutes
  let total_minutes := pyInt (preparation_time + base_minutes)
  max 30 total_minutes

/-! ## Order validators (`app/validators/order_validators.py`, class `OrderValidator`)

Request payloads are Python dicts with string keys; they are embedded as
association lists over a small value universe `PyVal`.  Numeric values are
exact rationals.  Values that would make Python raise (e.g. `float()` of a
non-numeric string) are outside the scope of every claim and are noted at
each spot. -/

inductive PyVal where
  | num (q : ℚ)
  | str (s : String)
  | bool (b : Bool)
  | pynone
  deriving DecidableEq, Repr

/-- Python truthiness of a `PyVal`. -/
def truthy : PyVal → Bool
  | .num q => q ≠ 0
  | .str s => s ≠ ""
  | .bool b => b
  | .pynone => false

/-- `dict.get(k)`: `none` when the key is absent. -/
def dget (d : List (String × PyVal)) (k : String) : Option PyVal :=
  (d.find? (fun p => p.1 = k)).map (fun p => p.2)

/-- `d[k] = v`: set a key in a dict. -/
def dset (d : List (String × PyVal)) (k : String) (v : PyVal) : List (String × PyVal) :=
  (d.filter (fun p => p.1 ≠ k)) ++ [(k, v)]

/-- Python `float(v)` on a `PyVal`.  Numeric strings are not modelled
(no claim exercises them); for values where Python raises, `none`. -/
def pyFloat? : PyVal → Option ℚ
  | .num q => some q
  | .bool b => some (if b then 1 else 0)
  | .str _ => none
  | .pynone => none

/-- Total variant of `pyFloat?` used where the source calls `float()` on a
value every claim instantiates with a number (Python would raise on the
`none` cases, which no claim reaches). -/
def pyFloatD (v : PyVal) : ℚ :=
  (pyFloat? v).getD 0

/-- Python `str(v)`.  Faithful on strings and booleans, which are the only
shapes the claims feed to it. -/
def pyStr : PyVal → String
  | .str s => s
  | .bool b => if b then "True" else "False"
  | .num q => toString q
  | .pynone => "None"

/-- Drop leading and trailing whitespace from a character list. -/
def trimChars (l : List Char) : List Char :=
  ((l.dropWhile Char.isWhitespace).reverse.dropWhile Char.isWhitespace).reverse

/-- Python `str.strip()` (structural-recursion equivalent of `String.trim`). -/
def pyStrip (s : String) : String :=
  String.mk (trimChars s.data)

/-- Python `str.upper()` for the ASCII strings in play
(structural-recursion equivalent of `String.toUpper`). -/
def pyUpper (s : String) : String :=
  String.mk (s.data.map Char.toUpper)

/-- Split a character list at every occurrence of a separator character. -/
def splitChars (sep : Char) : List Char → List (List Char)
  | [] => [[]]
  | c :: rest =>
    match splitChars sep rest with
    | a :: parts => if c = sep then [] :: a :: parts else (c :: a) :: parts
    | [] => [[c]]

/-- Python `', '.join(...)`. -/
def joinComma : List String → String
  | [] => ""
  | [x] => x
  | x :: rest => x ++ ", " ++ joinComma rest

/-- `OrderValidator.validate_coordinates`, returning `(is_valid, error)`. -/
def validate_coordinates (lat lng : Option PyVal) (pfx : String) : Bool × Option String :=
  match (lat.bind pyFloat?), (lng.bind pyFloat?) with
  | some la, some ln =>
    if ¬(-90 ≤ la ∧ la ≤ 90) then
      (false, some (pfx ++ " latitude must be between -90 and 90"))
    else if ¬(-180 ≤ ln ∧ ln ≤ 180) then
      (false, some (pfx ++ " longitude must be between -180 and 180"))
    else (true, none)
  | _, _ => (false, some (pfx ++ " coordinates must be valid numbers"))

/-- Append an optional error message, as `_validate_coordinates` /
`_validate_address` do with their `errors` accumulator list. -/
def appendErr (es : List String) (o : Option String) : List String :=
  match o with
  | some m => es ++ [m]
  | none => es

/-- `OrderValidator.PHONE_PATTERNS`, first pattern: `254[71]` then 8 digits. -/
def phonePat1 : List Char → Bool
  | '2' :: '5' :: '4' :: c :: rest =>
    (c = '7' || c = '1') && rest.length = 8 && rest.all Char.isDigit
  | _ => false

/-- Second pattern: `07` then 8 digits. -/
def phonePat2 : List Char → Bool
  | '0' :: '7' :: rest => rest.length = 8 && rest.all Char.isDigit
  | _ => false

/-- Third pattern: `+254[71]` then 8 digits. -/
def phonePat3 : List Char → Bool
  | '+' :: '2' :: '5' :: '4' :: c :: rest =>
    (c = '7' || c = '1') && rest.length = 8 && rest.all Char.isDigit
  | _ => false

/-- `OrderValidator.validate_phone_number` (`str(phone).strip()` then the
three anchored regexes). -/
def validate_phone_number (phone : String) : Bool :=
  let l := trimChars phone.data
  phonePat1 l || phonePat2 l || phonePat3 l

/-- `OrderValidator.normalize_phone_number`. -/
def normalize_phone_number (phone : String) : String :=
  let l := (trimChars phone.data).filter (fun c => ¬(c.isWhitespace || c = '-'))
  let l := match l with
    | '+' :: '2' :: '5' :: '4' :: rest => '2' :: '5' :: '4' :: rest
    | _ => l
  let l := match l with
    | '0' :: '7' :: rest => '2' :: '5' :: '4' :: '7' :: rest
    | _ => l
  String.mk l

/-- One `\d+(\.\d+)?` component of the dimensions regex. -/
def decimalComponent (l : List Char) : Bool :=
  match splitChars '.' l with
  | [a] => a ≠ [] && a.all Char.isDigit
  | [a, b] => a ≠ [] && b ≠ [] && a.all Char.isDigit && b.all Char.isDigit
  | _ => false

/-- `OrderValidator.validate_dimensions`: `^\d+(\.\d+)?x\d+(\.\d+)?x\d+(\.\d+)?$`. -/
def validate_dimensions (dims : String) : Bool :=
  if dims = "" then true
  else match splitChars 'x' dims.data with
    | [a, b, c] => decimalComponent a && decimalComponent b && decimalComponent c
    | _ => false

/-- `OrderValidator._validate_address`, returning the error it would append
(if any).  A non-string truthy address would raise in Python; no claim
reaches that shape. -/
def validate_address_err (address : Option PyVal) (field_name : String) : Option String :=
  match address with
  | some (.str s) =>
    if pyStrip s = "" then some (field_name ++ " is required")
    else
      let t := pyStrip s
      if t.length < 5 then some (field_name ++ " must be at least 5 characters")
      else if t.length > 500 then some (field_name ++ " cannot exceed 500 characters")
      else none
  | _ => some (field_name ++ " is required")

/-- The required-field loop at the top of `validate_create_order` /
`validate_price_estimate`: missing or falsy fields produce
`"<field> is required"`, present fields are copied into `validated_data`. -/
def requiredFieldsPass (data : List (String × PyVal)) (fields : List String) :
    List String × List (String × PyVal) :=
  fields.foldl
    (fun acc f =>
      match dget data f with
      | some v =>
        if truthy v then (acc.1, dset acc.2 f v)
        else (acc.1 ++ [f ++ " is required"], acc.2)
      | none => (acc.1 ++ [f ++ " is required"], acc.2))
    ([], [])

/-- `OrderValidator.validate_create_order`, returning the source's triple
`(is_valid, validated_data, errors)` — including its final line
`return len(errors) == 0, validated_data if errors else None, errors`
verbatim. -/
def validate_create_order (data : List (String × PyVal)) :
    Bool × Option (List (String × PyVal)) × List String :=
  let required := ["pickup_lat", "pickup_lng", "pickup_address",
    "destination_lat", "destination_lng", "destination_address", "weight_kg"]
  let (errors, vd) := requiredFieldsPass data required
  if errors ≠ [] then (false, none, errors)
  else
    let errors := appendErr errors
      (validate_coordinates (dget vd "pickup_lat") (dget vd "pickup_lng") "Pickup").2
    let errors := appendErr errors
      (validate_coordinates (dget vd "destination_lat") (dget vd "destination_lng")
        "Destination").2
    let weight_kg := pyFloatD ((dget vd "weight_kg").getD (.num 0))
    let (errors, vd) :=
      if weight_kg ≤ 0 then (errors ++ ["Weight must be greater than 0 kg"], vd)
      else if weight_kg > 100 then (errors ++ ["Weight cannot exceed 100 kg"], vd)
      else (errors, dset vd "weight_kg" (.num weight_kg))
    let (errors, vd) :=
      match dget data "pickup_phone" with
      | some v =>
        if truthy v then
          if ¬validate_phone_number (pyStr v) then
            (errors ++ ["Invalid pickup phone number format"], vd)
          else (errors, dset vd "pickup_phone" (.str (normalize_phone_number (pyStr v))))
        else (errors, vd)
      | none => (errors, vd)
    let (errors, vd) :=
      match dget data "destination_phone" with
      | some v =>
        if truthy v then
          if ¬validate_phone_number (pyStr v) then
            (errors ++ ["Invalid destination phone number format"], vd)
          else (errors, dset vd "destination_phone" (.str (normalize_phone_number (pyStr v))))
        else (errors, vd)
      | none => (errors, vd)
    let vd := dset vd "fragile" ((dget data "fragile").getD (.bool false))
    let vd := dset vd "insurance_required" ((dget data "insurance_required").getD (.bool false))
    let vd := dset vd "is_express" ((dget data "is_express").getD (.bool false))
    let vd := dset vd "is_weekend" ((dget data "is_weekend").getD (.bool false))
    let (errors, vd) :=
      match dget data "parcel_description" with
      | some v =>
        if truthy v then
          let d := pyStrip (pyStr v)
          if d.length < 3 then
            (errors ++ ["Parcel description must be at least 3 characters"], vd)
          else if d.length > 500 then
            (errors ++ ["Parcel description cannot exceed 500 characters"], vd)
          else (errors, dset vd "parcel_description" (.str d))
        else (errors, vd)
      | none => (errors, vd)
    let (errors, vd) :=
      match dget data "parcel_dimensions" with
      | some v =>
        if truthy v then
          if ¬validate_dimensions (pyStr v) then
            (errors ++ ["Invalid parcel dimensions format (expected: LxWxH in cm)"], vd)
          else (errors, dset vd "parcel_dimensions" v)
        else (errors, vd)
      | none => (errors, vd)
    let errors := appendErr errors (validate_address_err (dget vd "pickup_address") "Pickup address")
    let errors := appendErr errors
      (validate_address_err (dget vd "destination_address") "Destination address")
    let errors :=
      if dget vd "pickup_lat" = dget vd "destination_lat" ∧
          dget vd "pickup_lng" = dget vd "destination_lng" then
        errors ++ ["Pickup and destination cannot be the same location"]
      else errors
    (errors.length = 0, if errors = [] then none else some vd, errors)

/-- The `valid_transitions` dict inside `validate_status_update`:
`none` models a current status that is not a key of the dict
(note: the source has no `ASSIGNED` key). -/
def valid_transitions (s : String) : Option (List String) :=
  if s = "PENDING" then some ["PICKED_UP", "CANCELLED"]
  else if s = "PICKED_UP" then some ["IN_TRANSIT", "CANCELLED"]
  else if s = "IN_TRANSIT" then some ["DELIVERED"]
  else if s = "DELIVERED" then some []
  else if s = "CANCELLED" then some []
  else none

/-- `OrderValidator.validate_status_update`, returning
`(is_valid, new_status, errors)`. -/
def validate_status_update (data : List (String × PyVal)) (current_status : String) :
    Bool × Option String × List String :=
  match dget data "status" with
  | none => (false, none, ["status is required"])
  | some v =>
    let new_status := pyUpper (pyStr v)
    match valid_transitions current_status with
    | none => (false, none, ["Invalid current status: " ++ current_status])
    | some nexts =>
      if new_status ∈ nexts then (true, some new_status, [])
      else if nexts ≠ [] then
        (false, none,
          ["Cannot change status from " ++ current_status ++ " to " ++ new_status ++
            ". Valid transitions: " ++ joinComma nexts])
      else
        (false, none, ["Cannot change status from " ++ current_status ++ " - order is final"])

/-! ## Payment callback parsing (`app/services/payment_service.py`,
`MpesaService.parse_callback`)

The gateway callback is a nested dict; `.get(k, {})` on missing dicts makes
every inner lookup yield `None`, embedded as `Option` structure fields.
The `try/except` wrapper of the source only fires on malformed attribute
access, which the typed embedding rules out. -/

/-- One `{Name, Value}` entry of `CallbackMetadata.Item`. -/
structure MItem where
  name : Option String
  value : Option PyVal
  deriving DecidableEq, Repr

/-- The `Body.stkCallback` dict of the gateway callback. -/
structure StkCallback where
  merchantRequestID : Option String
  checkoutRequestID : Option String
  resultCode : Option Int
  resultDesc : Option String
  items : List MItem
  deriving DecidableEq, Repr

/-- The empty dict produced by `.get('stkCallback', {})` when absent. -/
def emptyStk : StkCallback :=
  { merchantRequestID := none, checkoutRequestID := none, resultCode := none,
    resultDesc := none, items := [] }

/-- The `Body` dict of the gateway callback. -/
structure CallbackBody where
  stkCallback : Option StkCallback
  deriving DecidableEq, Repr

/-- The raw callback payload (`callback_data`). -/
structure CallbackData where
  body : Option CallbackBody
  deriving DecidableEq, Repr

/-- The `stkCallback` dict `parse_callback` works on, after the two
defaulting `.get` calls. -/
def CallbackData.stk (cb : CallbackData) : StkCallback :=
  match cb.body with
  | some b => b.stkCallback.getD emptyStk
  | none => emptyStk

/-- The dict returned by `MpesaService.parse_callback`.  A key absent from
the dict is `none`; a key present with Python `None` is `some .pynone`. -/
structure ParsedCallback where
  merchant_request_id : Option String
  checkout_request_id : Option String
  result_code : Option Int
  result_description : Option String
  amount : Option PyVal
  receipt_number : Option PyVal
  transaction_date : Option String
  phone_number : Option String
  success : Bool
  status : String
  deriving DecidableEq, Repr

/-- The metadata loop body of `parse_callback`: one `item` updates the
result dict when its `Name` is one of the four well-known field names. -/
def metaStep (r : ParsedCallback) (item : MItem) : ParsedCallback :=
  if item.name = some "Amount" then
    { r with amount := some (item.value.getD .pynone) }
  else if item.name = some "MpesaReceiptNumber" then
    { r with receipt_number := some (item.value.getD .pynone) }
  else if item.name = some "TransactionDate" then
    { r with transaction_date := some (pyStr (item.value.getD .pynone)) }
  else if item.name = some "PhoneNumber" then
    { r with phone_number := some (pyStr (item.value.getD .pynone)) }
  else r

/-- `MpesaService.parse_callback`. -/
def parse_callback (cb : CallbackData) : ParsedCallback :=
  let stk := cb.stk
  let result : ParsedCallback :=
    { merchant_request_id := stk.merchantRequestID
      checkout_request_id := stk.checkoutRequestID
      result_code := stk.resultCode
      result_description := stk.resultDesc
      amount := none, receipt_number := none
      transaction_date := none, phone_number := none
      success := false, status := "" }
  if stk.resultCode = some 0 then
    let result := stk.items.foldl metaStep result
    { result with success := true, status := "completed" }
  else
    { result with success := false, status := "failed" }

/-- The raw `Value` of the last metadata item carrying a given `Name`,
starting from a prior value (`none` = key never written). -/
def lastNamedFrom (nm : String) (items : List MItem) (init : Option PyVal) : Option PyVal :=
  items.foldl (fun acc it => if it.name = some nm then some (it.value.getD .pynone) else acc) init

/-- The raw `Value` of the last metadata item carrying a given `Name`. -/
def lastNamed (nm : String) (items : List MItem) : Option PyVal :=
  lastNamedFrom nm items none

/-! ## Payment reconciliation (spec §4.5) -/

/-- Payment states of §4.5. -/
inductive PayStatus where
  | PENDING | PROCESSING | PAID | FAILED | CANCELLED | TIMEOUT
  deriving DecidableEq, Repr

/-- Terminal payment states. -/
def PayStatus.isTerminal : PayStatus → Bool
  | .PENDING => false
  | .PROCESSING => false
  | _ => true

/-- Reconciliation state of one payment: its status, the stored terminal
outcome, and side-effect accounting (the assignment-trigger flag of §4.5
plus counters for verifying exactly-once delivery of effects). -/
structure ReconState where
  paymentStatus : PayStatus
  storedOutcome : Option ParsedCallback
  assignTriggered : Bool
  assignCount : ℕ
  notifCount : ℕ
  deriving DecidableEq, Repr

/-- Modelled from the spec: the `reconcile(callback_payload)` orchestrator
of §4.5 is absent from `src/` (only `MpesaService.parse_callback`, used
here for parsing, is present).  Per the spec: a callback for an
already-terminal payment is a no-op success returning the same terminal
result with no side effects; otherwise result code 0 moves the payment to
PAID, stores the outcome, and — if not already done for this payment —
triggers courier auto-assignment and a payment-confirmation notification
exactly once; a nonzero code stores a failure outcome with no downstream
effects. -/
def reconcile (s : ReconState) (cb : CallbackData) : ParsedCallback × ReconState :=
  if s.paymentStatus.isTerminal then
    (s.storedOutcome.getD (parse_callback cb), s)
  else
    let p := parse_callback cb
    if p.success then
      let s' : ReconState := { s with paymentStatus := .PAID, storedOutcome := some p }
      let s' := if ¬s.assignTriggered then
          { s' with
            assignTriggered := true
            assignCount := s.assignCount + 1
            notifCount := s.notifCount + 1 }
        else s'
      (p, s')
    else
      (p, { s with paymentStatus := .FAILED, storedOutcome := some p })

/-- Iterated delivery of the same callback (gateway retries). -/
def reconcileIter (cb : CallbackData) (s : ReconState) : ℕ → ReconState
  | 0 => s
  | n + 1 => (reconcile (reconcileIter cb s n) cb).2

/-! ## Geo module (`app/services/courier_assignment.py`)

`haversine_distance_km` uses `math.sin/cos/sqrt/atan2/radians`; these are
real functions, so this part of the embedding lives over `ℝ`.  (Finiteness
in the claim is automatic: every real is finite.) -/

noncomputable section GeoSection

/-- `math.radians`. -/
def rad (x : ℝ) : ℝ := x * Real.pi / 180

/-- `math.atan2` (the C library two-argument arctangent). -/
def atan2 (y x : ℝ) : ℝ :=
  if 0 < x then Real.arctan (y / x)
  else if x < 0 then
    (if 0 ≤ y then Real.arctan (y / x) + Real.pi else Real.arctan (y / x) - Real.pi)
  else
    (if 0 < y then Real.pi / 2 else if y < 0 then -(Real.pi / 2) else 0)

/-- The intermediate `a` of `haversine_distance_km`. -/
def haversine_a (lat1 lon1 lat2 lon2 : ℝ) : ℝ :=
  Real.sin (rad (lat2 - lat1) / 2) ^ 2 +
    Real.cos (rad lat1) * Real.cos (rad lat2) * Real.sin (rad (lon2 - lon1) / 2) ^ 2

/-- `haversine_distance_km` (Earth radius 6371.0 km). -/
def haversine_distance_km (lat1 lon1 lat2 lon2 : ℝ) : ℝ :=
  let a := haversine_a lat1 lon1 lat2 lon2
  let c := 2 * atan2 (Real.sqrt a) (Real.sqrt (1 - a))
  6371.0 * c

/-- The spherical-law-of-cosines expression `sin u sin v + cos u cos v cos d`
is trapped in `[-1, 1]`. -/
theorem sphericalCos_bounds (u v d : ℝ) :
    -1 ≤ Real.sin u * Real.sin v + Real.cos u * Real.cos v * Real.cos d ∧
      Real.sin u * Real.sin v + Real.cos u * Real.cos v * Real.cos d ≤ 1 := by
  have h3 : Real.cos u * Real.cos v * (1 - Real.cos d) =
      Real.cos (u - v) - (Real.sin u * Real.sin v + Real.cos u * Real.cos v * Real.cos d) := by
    rw [Real.cos_sub]; ring
  have h4 : Real.cos u * Real.cos v * (1 + Real.cos d) =
      (Real.sin u * Real.sin v + Real.cos u * Real.cos v * Real.cos d) + Real.cos (u + v) := by
    rw [Real.cos_add]; ring
  have hd1 : 0 ≤ 1 - Real.cos d := by nlinarith [Real.cos_le_one d]
  have hd2 : 0 ≤ 1 + Real.cos d := by nlinarith [Real.neg_one_le_cos d]
  have hsub1 : Real.cos (u - v) ≤ 1 := Real.cos_le_one _
  have hsub2 : -1 ≤ Real.cos (u - v) := Real.neg_one_le_cos _
  have hadd1 : Real.cos (u + v) ≤ 1 := Real.cos_le_one _
  have hadd2 : -1 ≤ Real.cos (u + v) := Real.neg_one_le_cos _
  constructor
  · rcases le_or_lt 0 (Real.cos u * Real.cos v) with h | h
    · nlinarith [mul_nonneg h hd2]
    · nlinarith [mul_nonpos_of_nonpos_of_nonneg h.le hd1]
  · rcases le_or_lt 0 (Real.cos u * Real.cos v) with h | h
    · nlinarith [mul_nonneg h hd1]
    · nlinarith [mul_nonpos_of_nonpos_of_nonneg h.le hd2]

/-- `a` rewritten through the half-angle and angle-difference identities. -/
theorem haversine_a_eq (lat1 lon1 lat2 lon2 : ℝ) :
    haversine_a lat1 lon1 lat2 lon2 =
      (1 - (Real.sin (rad lat1) * Real.sin (rad lat2) +
        Real.cos (rad lat1) * Real.cos (rad lat2) * Real.cos (rad lon2 - rad lon1))) / 2 := by
  have hs : ∀ t : ℝ, Real.sin (t / 2) ^ 2 = 1 / 2 - Real.cos t / 2 := by
    intro t
    have h := Real.sin_sq_eq_half_sub (x := t / 2)
    have h2 : 2 * (t / 2) = t := by ring
    rw [h2] at h
    exact h
  have e1 : rad (lat2 - lat1) = rad lat2 - rad lat1 := by unfold rad; ring
  have e2 : rad (lon2 - lon1) = rad lon2 - rad lon1 := by unfold rad; ring
  unfold haversine_a
  rw [e1, e2, hs, hs, Real.cos_sub]
  ring

/-- `0 ≤ a`. -/
theorem haversine_a_nonneg (lat1 lon1 lat2 lon2 : ℝ) :
    0 ≤ haversine_a lat1 lon1 lat2 lon2 := by
  rw [haversine_a_eq]
  have h := (sphericalCos_bounds (rad lat1) (rad lat2) (rad lon2 - rad lon1)).2
  linarith

/-- `a ≤ 1`, so `sqrt(1 - a)` never sees a negative argument (the only
potential error path of the Python function). -/
theorem haversine_a_le_one (lat1 lon1 lat2 lon2 : ℝ) :
    haversine_a lat1 lon1 lat2 lon2 ≤ 1 := by
  rw [haversine_a_eq]
  have h := (sphericalCos_bounds (rad lat1) (rad lat2) (rad lon2 - rad lon1)).1
  linarith

/-- `atan2` of two nonnegative arguments is nonnegative. -/
theorem atan2_nonneg {y x : ℝ} (hy : 0 ≤ y) (hx : 0 ≤ x) : 0 ≤ atan2 y x := by
  unfold atan2
  rcases lt_trichotomy 0 x with hpos | heq | hneg
  · rw [if_pos hpos]
    have hq : (0 : ℝ) ≤ y / x := div_nonneg hy hpos.le
    have h := Real.arctan_strictMono.monotone hq
    rwa [Real.arctan_zero] at h
  · subst heq
    rw [if_neg (lt_irrefl 0), if_neg (lt_irrefl 0)]
    rcases hy.lt_or_eq with hy' | hy'
    · rw [if_pos hy']
      linarith [Real.pi_pos]
    · rw [← hy', if_neg (lt_irrefl 0), if_neg (lt_irrefl 0)]
  · linarith

/-- The haversine distance is nonnegative. -/
theorem haversine_nonneg (lat1 lon1 lat2 lon2 : ℝ) :
    0 ≤ haversine_distance_km lat1 lon1 lat2 lon2 := by
  unfold haversine_distance_km
  have h := atan2_nonneg (Real.sqrt_nonneg (haversine_a lat1 lon1 lat2 lon2))
    (Real.sqrt_nonneg (1 - haversine_a lat1 lon1 lat2 lon2))
  nlinarith

/-- Identical coordinates give distance exactly 0. -/
theorem haversine_self (lat lon : ℝ) : haversine_distance_km lat lon lat lon = 0 := by
  unfold haversine_distance_km haversine_a
  simp only [sub_self]
  have hr : rad 0 = 0 := by unfold rad; ring
  rw [hr]
  simp only [zero_div, Real.sin_zero, ne_eq, OfNat.ofNat_ne_zero, not_false_eq_true,
    zero_pow, mul_zero, add_zero, zero_add, Real.sqrt_zero, sub_zero, Real.sqrt_one]
  unfold atan2
  norm_num [Real.arctan_zero]

end GeoSection

/-! ## Courier assignment engine (`app/services/courier_assignment.py`)

The database rows touched by `find_nearest_available_courier` and
`auto_assign_courier` are embedded as explicit lists; the unordered
candidate query result is a list in an arbitrary order. -/

/-- `CourierProfile` rows, restricted to the columns the assignment engine
reads (`current_latitude/longitude` are nullable until the courier reports
a location). -/
structure CourierProfile where
  id : ℕ
  user_id : ℕ
  is_available : Bool
  is_verified : Bool
  current_latitude : Option ℝ
  current_longitude : Option ℝ

/-- `User` rows, restricted to the columns the assignment engine reads. -/
structure DUser where
  id : ℕ
  full_name : String
  email : Option String
  phone : String

/-- `OrderStatus` enum of the delivery model. -/
inductive OrderStatus where
  | PENDING | ASSIGNED | PICKED_UP | IN_TRANSIT | DELIVERED | CANCELLED
  deriving DecidableEq, Repr, Fintype

/-- `.value` of the status enum. -/
def OrderStatus.value : OrderStatus → String
  | .PENDING => "PENDING"
  | .ASSIGNED => "ASSIGNED"
  | .PICKED_UP => "PICKED_UP"
  | .IN_TRANSIT => "IN_TRANSIT"
  | .DELIVERED => "DELIVERED"
  | .CANCELLED => "CANCELLED"

/-- `DeliveryOrder` rows, restricted to the columns the assignment engine
reads and writes. -/
structure DeliveryOrder where
  id : ℕ
  user_id : ℕ
  courier_id : Option ℕ
  status : OrderStatus
  pickup_lat : ℝ
  pickup_lng : ℝ
  tracking_number : String

/-- A `Notification` row added by the assignment engine. -/
structure DNotification where
  user_id : ℕ
  order_id : ℕ
  type : String
  message : String

noncomputable section AssignSection

/-- The haversine distance from the pickup point to a candidate's reported
location (after the query filter guarantees the location is present). -/
def courier_distance (plat plng : ℝ) (c : CourierProfile) : ℝ :=
  haversine_distance_km plat plng (c.current_latitude.getD 0) (c.current_longitude.getD 0)

/-- The candidate query of `find_nearest_available_courier`:
available, verified, and both location columns non-null. -/
def eligible_profiles (profiles : List CourierProfile) : List CourierProfile :=
  profiles.filter (fun c =>
    c.is_available && c.is_verified && c.current_latitude.isSome && c.current_longitude.isSome)

/-- The loop body of `find_nearest_available_courier`: take the candidate
when it is within range and strictly closer than the best so far. -/
def assignStep (plat plng maxd : ℝ) (acc : Option CourierProfile × Option ℝ)
    (c : CourierProfile) : Option CourierProfile × Option ℝ :=
  let d := courier_distance plat plng c
  match acc.2 with
  | none => if d ≤ maxd then (some c, some d) else acc
  | some nd => if d ≤ maxd ∧ d < nd then (some c, some d) else acc

/-- `find_nearest_available_courier` (`max_distance_km` defaults to 20). -/
def find_nearest_available_courier (plat plng : ℝ) (profiles : List CourierProfile)
    (max_distance_km : ℝ := 20) : Option CourierProfile × Option ℝ :=
  (eligible_profiles profiles).foldl (assignStep plat plng max_distance_km) (none, none)

/-- The dict returned by `auto_assign_courier`. -/
structure AssignResult where
  success : Bool
  message : Option String
  courier_id : Option ℕ
  courier_name : Option String
  distance_km : Option ℝ

/-- Python `round(x, 2)` (the source only surfaces this in the success
payload; Python rounds ties to even, Mathlib's `round` rounds ties up —
they agree except at exact half-cent ties, which no claim exercises). -/
def round2 (x : ℝ) : ℝ :=
  ((round (x * 100) : ℤ) : ℝ) / 100

/-- `auto_assign_courier`.  The looked-up order is the `Option` input; the
function returns the result dict, the (possibly updated) order, the
notifications added to the session, and the recipients of best-effort
assignment emails. -/
def auto_assign_courier (lookedUp : Option DeliveryOrder) (profiles : List CourierProfile)
    (users : List DUser) :
    AssignResult × Option DeliveryOrder × List DNotification × List String :=
  match lookedUp with
  | none =>
    (⟨false, some "Order not found", none, none, none⟩, none, [], [])
  | some order =>
    if order.courier_id.isSome then
      (⟨false, some "Order already has assigned courier", none, none, none⟩, some order, [], [])
    else if ¬(order.status = .PENDING ∨ order.status = .ASSIGNED) then
      (⟨false, some ("Order status " ++ order.status.value ++ " cannot be auto-assigned"),
        none, none, none⟩, some order, [], [])
    else
      match find_nearest_available_courier order.pickup_lat order.pickup_lng profiles with
      | (none, _) =>
        (⟨false, some "No available courier found", none, none, none⟩, some order, [], [])
      | (some cp, d?) =>
        match users.find? (fun u => u.id = cp.user_id) with
        | none =>
          (⟨false, some "Courier user not found", none, none, none⟩, some order, [], [])
        | some cu =>
          let order' := { order with courier_id := some cu.id, status := .ASSIGNED }
          let notifs : List DNotification :=
            [⟨order.user_id, order.id, "COURIER_ASSIGNED",
              "Courier " ++ cu.full_name ++ " has been auto-assigned to your order #" ++
                order.tracking_number⟩,
             ⟨cu.id, order.id, "NEW_ASSIGNMENT",
              "You have been auto-assigned to order #" ++ order.tracking_number⟩]
          let emails : List String :=
            match users.find? (fun u => u.id = order.user_id) with
            | some cust =>
              match cust.email with
              | some e => if e ≠ "" then [e] else []
              | none => []
            | none => []
          (⟨true, none, some cu.id, some cu.full_name, d?.map round2⟩,
            some order', notifs, emails)

end AssignSection

/-! ## Theorems -/

/-- Truncation toward zero of a nonnegative rational is its floor. -/
theorem pyInt_eq_floor {q : ℚ} (h : 0 ≤ q) : pyInt q = ⌊q⌋ := by
  unfold pyInt
  rw [if_neg (not_lt.mpr h)]

/-- C7: for distance_km=8.5, weight_kg=1.2, fragile=true, insurance=false,
express=false, weekend=false, the breakdown has distance_price = 345,
weight_price = 0, fragile_charge = 50, subtotal = 395, total_price = 395. -/
theorem c7_example_breakdown :
    (calculate_price_breakdown false (17/2) (6/5) true false false (some false)).distance_price
        = 345 ∧
      (calculate_price_breakdown false (17/2) (6/5) true false false (some false)).weight_price
        = 0 ∧
      (calculate_price_breakdown false (17/2) (6/5) true false false (some false)).fragile_charge
        = 50 ∧
      (calculate_price_breakdown false (17/2) (6/5) true false false
        (some false)).subtotal_before_multipliers = 395 ∧
      (calculate_price_breakdown false (17/2) (6/5) true false false (some false)).total_price
        = 395 := by
  norm_num [calculate_price_breakdown, calculate_distance_price, calculate_weight_price,
    calculate_fragile_charge, calculate_insurance_charge, calculate_weekend_surcharge,
    calculate_express_surcharge, BASE_PRICE, PRICE_PER_KM, FREE_DISTANCE_KM, PRICE_PER_KG,
    FREE_WEIGHT_KG, FRAGILE_CHARGE, INSURANCE_CHARGE, WEEKEND_MULTIPLIER, EXPRESS_MULTIPLIER]

/-- C6: with both the weekend and express flags set, the two surcharges are
each computed from the same subtotal (distance + weight + fragile +
insurance) and added, so the total is 1.7 times that subtotal. -/
theorem c6_surcharges_additive (wn : Bool) (d w : ℚ) (fragile insurance : Bool) :
    (calculate_price_breakdown wn d w fragile insurance true (some true)).total_price =
        (calculate_distance_price d + calculate_weight_price w +
          calculate_fragile_charge fragile + calculate_insurance_charge insurance) +
        (calculate_distance_price d + calculate_weight_price w +
          calculate_fragile_charge fragile + calculate_insurance_charge insurance) *
          (WEEKEND_MULTIPLIER - 1) +
        (calculate_distance_price d + calculate_weight_price w +
          calculate_fragile_charge fragile + calculate_insurance_charge insurance) *
          (EXPRESS_MULTIPLIER - 1) ∧
      (calculate_price_breakdown wn d w fragile insurance true (some true)).total_price =
        (17/10) * (calculate_price_breakdown wn d w fragile insurance true
          (some true)).subtotal_before_multipliers ∧
      (calculate_price_breakdown wn d w fragile insurance true
          (some true)).subtotal_before_multipliers =
        calculate_distance_price d + calculate_weight_price w +
          calculate_fragile_charge fragile + calculate_insurance_charge insurance := by
  simp only [calculate_price_breakdown, calculate_weekend_surcharge,
    calculate_express_surcharge, Option.getD_some, if_true]
  unfold WEEKEND_MULTIPLIER EXPRESS_MULTIPLIER
  refine ⟨by ring_nf, by ring_nf, by ring_nf⟩

/-- C8: the distance component is exactly BASE_PRICE (150) up to the free
2 km and BASE_PRICE + (d-2)*30 beyond; the weight component is exactly 0 up
to the free 5 kg and (w-5)*10 beyond. -/
theorem c8_free_thresholds (d w : ℚ) :
    (0 < d → d ≤ 2 → calculate_distance_price d = 150) ∧
      (2 < d → calculate_distance_price d = 150 + (d - 2) * 30) ∧
      (0 < w → w ≤ 5 → calculate_weight_price w = 0) ∧
      (5 < w → calculate_weight_price w = (w - 5) * 10) := by
  unfold calculate_distance_price calculate_weight_price
  unfold BASE_PRICE PRICE_PER_KM FREE_DISTANCE_KM PRICE_PER_KG FREE_WEIGHT_KG
  refine ⟨fun _ h2 => ?_, fun h => ?_, fun _ h2 => ?_, fun h => ?_⟩
  · rw [if_pos h2]
  · rw [if_neg (not_le.mpr h)]
  · rw [if_pos h2]
  · rw [if_neg (not_le.mpr h)]

/-- Witness for C8 at the concrete distances 1 km and 3 km and weights
4 kg and 7 kg. -/
theorem c8_free_thresholds_witness :
    calculate_distance_price 1 = 150 ∧
      calculate_distance_price 3 = 150 + ((3 : ℚ) - 2) * 30 ∧
      calculate_weight_price 4 = 0 ∧
      calculate_weight_price 7 = ((7 : ℚ) - 5) * 10 :=
  ⟨(c8_free_thresholds 1 4).1 (by norm_num) (by norm_num),
    (c8_free_thresholds 3 4).2.1 (by norm_num),
    (c8_free_thresholds 1 4).2.2.1 (by norm_num) (by norm_num),
    (c8_free_thresholds 1 7).2.2.2 (by norm_num)⟩

/-- C4 fails as stated: at distance 10.25 km (non-express) the source's
`int(...)` truncation yields 35 minutes while the claimed ceiling yields
36. -/
theorem c4_eta_counterexample :
    calculate_estimated_delivery_time (41/4) false = 35 ∧
      max (30 : ℤ) ⌈(15 : ℚ) + (41/4) / 30 * 60 * 1⌉ = 36 := by
  have hq : (15 : ℚ) + (41/4) / 30 * 60 = 71/2 := by norm_num
  have hf : ⌊(71/2 : ℚ)⌋ = 35 := by
    rw [Int.floor_eq_iff]
    norm_num
  have hc : ⌈(71/2 : ℚ)⌉ = 36 := by
    rw [Int.ceil_eq_iff]
    norm_num
  constructor
  · have h1 : calculate_estimated_delivery_time (41/4) false =
        max 30 (pyInt (15 + (41/4 : ℚ) / 30 * 60)) := rfl
    rw [h1, hq]
    unfold pyInt
    rw [if_neg (by norm_num), hf]
    norm_num
  · rw [mul_one, hq, hc]
    norm_num

/-- C4 amended: the estimated delivery time equals
`max 30 ⌊15 + (d/30)·60·(0.7 if express else 1)⌋` — the source truncates
toward zero (the floor, for these positive quantities) rather than taking
the ceiling — and is never below 30 minutes. -/
theorem c4_eta_amended (d : ℚ) (e : Bool) (hd : 0 < d) :
    calculate_estimated_delivery_time d e =
        max 30 ⌊(15 : ℚ) + d / 30 * 60 * (if e then 7/10 else 1)⌋ ∧
      (30 : ℤ) ≤ calculate_estimated_delivery_time d e := by
  have hbase : (0 : ℚ) ≤ d / 30 * 60 := by positivity
  cases e with
  | false =>
    have h1 : calculate_estimated_delivery_time d false =
        max 30 (pyInt (15 + d / 30 * 60)) := rfl
    rw [h1, pyInt_eq_floor (by linarith)]
    constructor
    · norm_num
    · exact le_max_left _ _
  | true =>
    have h1 : calculate_estimated_delivery_time d true =
        max 30 (pyInt (15 + d / 30 * 60 * (7/10))) := rfl
    rw [h1, pyInt_eq_floor (by nlinarith)]
    constructor
    · norm_num
    · exact le_max_left _ _

/-- Witness for C4 amended at distance 10.25 km, non-express. -/
theorem c4_eta_amended_witness :
    calculate_estimated_delivery_time (41/4) false =
        max 30 ⌊(15 : ℚ) + (41/4) / 30 * 60 * (if false then 7/10 else 1)⌋ ∧
      (30 : ℤ) ≤ calculate_estimated_delivery_time (41/4) false :=
  c4_eta_amended (41/4) false (by norm_num)

/-- The §4.3 transition table as the spec words it.  This definition is the
refinement reference built from the spec's table; it is compared against
the source's `validate_status_update`. -/
def specAllowsTransition : OrderStatus → OrderStatus → Bool
  | .PENDING, .ASSIGNED => true
  | .PENDING, .CANCELLED => true
  | .ASSIGNED, .PICKED_UP => true
  | .ASSIGNED, .CANCELLED => true
  | .PICKED_UP, .IN_TRANSIT => true
  | .PICKED_UP, .CANCELLED => true
  | .IN_TRANSIT, .DELIVERED => true
  | _, _ => false

/-- The transition table `validate_status_update` actually implements:
PENDING jumps straight to PICKED_UP, and ASSIGNED is not a key of the
dict at all (an ASSIGNED order is rejected as an invalid current status). -/
def codeAllowsTransition : OrderStatus → OrderStatus → Bool
  | .PENDING, .PICKED_UP => true
  | .PENDING, .CANCELLED => true
  | .PICKED_UP, .IN_TRANSIT => true
  | .PICKED_UP, .CANCELLED => true
  | .IN_TRANSIT, .DELIVERED => true
  | _, _ => false

/-- C1 fails as stated: the spec's table allows PENDING→ASSIGNED, which the
source rejects, and forbids PENDING→PICKED_UP, which the source accepts. -/
theorem c1_transition_counterexample :
    specAllowsTransition .PENDING .ASSIGNED = true ∧
      (validate_status_update [("status", PyVal.str "ASSIGNED")] "PENDING").1 = false ∧
      specAllowsTransition .PENDING .PICKED_UP = false ∧
      (validate_status_update [("status", PyVal.str "PICKED_UP")] "PENDING").1 = true := by
  decide

/-- C1 amended: `validate_status_update` accepts a request exactly when the
pair is in the source's own table (PENDING→{PICKED_UP, CANCELLED},
PICKED_UP→{IN_TRANSIT, CANCELLED}, IN_TRANSIT→{DELIVERED}, nothing from
DELIVERED or CANCELLED, and nothing from ASSIGNED, which is not a key of
the table); every other request — including self-transitions — fails with
a non-empty error list and no new status (the validator is a pure function,
so the order is untouched). -/
theorem c1_transition_table :
    ∀ cur req : OrderStatus,
      ((validate_status_update [("status", PyVal.str req.value)] cur.value).1 = true ↔
        codeAllowsTransition cur req = true) ∧
      (codeAllowsTransition cur req = true →
        validate_status_update [("status", PyVal.str req.value)] cur.value =
          (true, some req.value, [])) ∧
      (codeAllowsTransition cur req = false →
        (validate_status_update [("status", PyVal.str req.value)] cur.value).1 = false ∧
          (validate_status_update [("status", PyVal.str req.value)] cur.value).2.1 = none ∧
          (validate_status_update [("status", PyVal.str req.value)] cur.value).2.2 ≠ []) := by
  decide

/-- Witness for C1 amended: the accepted pair PENDING→PICKED_UP at its
concrete strings. -/
theorem c1_transition_table_witness :
    validate_status_update [("status", PyVal.str OrderStatus.PICKED_UP.value)]
        OrderStatus.PENDING.value =
      (true, some OrderStatus.PICKED_UP.value, []) :=
  (c1_transition_table .PENDING .PICKED_UP).2.1 (by decide)

/-- A fully valid order-creation payload (all required fields present and
in range, optional fields omitted). -/
def c3ValidData : List (String × PyVal) :=
  [("pickup_lat", .num 1), ("pickup_lng", .num 36),
   ("pickup_address", .str "Nairobi CBD, Moi Avenue"),
   ("destination_lat", .num (-2)), ("destination_lng", .num 37),
   ("destination_address", .str "Westlands, Waiyaki Way"),
   ("weight_kg", .num 2)]

/-- The same payload with an out-of-range weight. -/
def c3InvalidData : List (String × PyVal) :=
  [("pickup_lat", .num 1), ("pickup_lng", .num 36),
   ("pickup_address", .str "Nairobi CBD, Moi Avenue"),
   ("destination_lat", .num (-2)), ("destination_lng", .num 37),
   ("destination_address", .str "Westlands, Waiyaki Way"),
   ("weight_kg", .num 200)]

/-- C3 fails on the code: the final line of `validate_create_order` returns
`validated_data if errors else None`, so a fully valid payload comes back as
`(True, None, [])` — valid with no validated data — while an invalid
payload comes back with the populated dict instead of `None`. -/
theorem c3_inverted_ternary :
    validate_create_order c3ValidData = (true, none, []) ∧
      (validate_create_order c3InvalidData).1 = false ∧
      (validate_create_order c3InvalidData).2.1.isSome = true ∧
      (validate_create_order c3InvalidData).2.2 = ["Weight cannot exceed 100 kg"] := by
  decide

/-- The string stored for the last metadata item carrying a given `Name`
(the source stores `str(value)` for dates and phone numbers). -/
def lastNamedStrFrom (nm : String) (items : List MItem) (init : Option String) : Option String :=
  items.foldl
    (fun acc it => if it.name = some nm then some (pyStr (it.value.getD .pynone)) else acc) init

/-- String form of `lastNamed`. -/
def lastNamedStr (nm : String) (items : List MItem) : Option String :=
  lastNamedStrFrom nm items none

/-- The metadata loop of `parse_callback` decomposed field by field: each
extracted field ends up holding the value of the last item bearing its
well-known name, and every other field of the result dict is untouched. -/
theorem metaStep_amount (r : ParsedCallback) (it : MItem) :
    (metaStep r it).amount =
      (if it.name = some "Amount" then some (it.value.getD .pynone) else r.amount) := by
  unfold metaStep
  split_ifs with h1 h2 h3 h4 <;> simp_all

theorem metaStep_receipt (r : ParsedCallback) (it : MItem) :
    (metaStep r it).receipt_number =
      (if it.name = some "MpesaReceiptNumber" then some (it.value.getD .pynone)
        else r.receipt_number) := by
  unfold metaStep
  split_ifs with h1 h2 h3 h4 <;> simp_all

theorem metaStep_date (r : ParsedCallback) (it : MItem) :
    (metaStep r it).transaction_date =
      (if it.name = some "TransactionDate" then some (pyStr (it.value.getD .pynone))
        else r.transaction_date) := by
  unfold metaStep
  split_ifs with h1 h2 h3 h4 <;> simp_all

theorem metaStep_phone (r : ParsedCallback) (it : MItem) :
    (metaStep r it).phone_number =
      (if it.name = some "PhoneNumber" then some (pyStr (it.value.getD .pynone))
        else r.phone_number) := by
  unfold metaStep
  split_ifs with h1 h2 h3 h4 <;> simp_all

theorem metaStep_invariant (r : ParsedCallback) (it : MItem) :
    (metaStep r it).merchant_request_id = r.merchant_request_id ∧
      (metaStep r it).checkout_request_id = r.checkout_request_id ∧
      (metaStep r it).result_code = r.result_code ∧
      (metaStep r it).result_description = r.result_description ∧
      (metaStep r it).success = r.success ∧
      (metaStep r it).status = r.status := by
  unfold metaStep
  split_ifs <;> exact ⟨rfl, rfl, rfl, rfl, rfl, rfl⟩

theorem lastNamedFrom_cons (nm : String) (it : MItem) (rest : List MItem)
    (init : Option PyVal) :
    lastNamedFrom nm (it :: rest) init =
      lastNamedFrom nm rest
        (if it.name = some nm then some (it.value.getD .pynone) else init) := rfl

theorem lastNamedStrFrom_cons (nm : String) (it : MItem) (rest : List MItem)
    (init : Option String) :
    lastNamedStrFrom nm (it :: rest) init =
      lastNamedStrFrom nm rest
        (if it.name = some nm then some (pyStr (it.value.getD .pynone)) else init) := rfl

theorem metaFold_fields (items : List MItem) (r : ParsedCallback) :
    (items.foldl metaStep r).amount = lastNamedFrom "Amount" items r.amount ∧
      (items.foldl metaStep r).receipt_number =
        lastNamedFrom "MpesaReceiptNumber" items r.receipt_number ∧
      (items.foldl metaStep r).transaction_date =
        lastNamedStrFrom "TransactionDate" items r.transaction_date ∧
      (items.foldl metaStep r).phone_number =
        lastNamedStrFrom "PhoneNumber" items r.phone_number ∧
      (items.foldl metaStep r).merchant_request_id = r.merchant_request_id ∧
      (items.foldl metaStep r).checkout_request_id = r.checkout_request_id ∧
      (items.foldl metaStep r).result_code = r.result_code ∧
      (items.foldl metaStep r).result_description = r.result_description ∧
      (items.foldl metaStep r).success = r.success ∧
      (items.foldl metaStep r).status = r.status := by
  induction items generalizing r with
  | nil =>
    simp [lastNamedFrom, lastNamedStrFrom]
  | cons it rest ih =>
    have hinv := metaStep_invariant r it
    refine ⟨?_, ?_, ?_, ?_, ?_, ?_, ?_, ?_, ?_, ?_⟩
    · rw [List.foldl_cons, (ih (metaStep r it)).1, lastNamedFrom_cons, metaStep_amount]
    · rw [List.foldl_cons, (ih (metaStep r it)).2.1, lastNamedFrom_cons, metaStep_receipt]
    · rw [List.foldl_cons, (ih (metaStep r it)).2.2.1, lastNamedStrFrom_cons, metaStep_date]
    · rw [List.foldl_cons, (ih (metaStep r it)).2.2.2.1, lastNamedStrFrom_cons, metaStep_phone]
    · rw [List.foldl_cons, (ih (metaStep r it)).2.2.2.2.1, hinv.1]
    · rw [List.foldl_cons, (ih (metaStep r it)).2.2.2.2.2.1, hinv.2.1]
    · rw [List.foldl_cons, (ih (metaStep r it)).2.2.2.2.2.2.1, hinv.2.2.1]
    · rw [List.foldl_cons, (ih (metaStep r it)).2.2.2.2.2.2.2.1, hinv.2.2.2.1]
    · rw [List.foldl_cons, (ih (metaStep r it)).2.2.2.2.2.2.2.2.1, hinv.2.2.2.2.1]
    · rw [List.foldl_cons, (ih (metaStep r it)).2.2.2.2.2.2.2.2.2, hinv.2.2.2.2.2]

/-- C9: `parse_callback` reports success exactly for result code 0; on
code 0 it extracts amount, receipt number, transaction timestamp, and
phone number from the metadata items by their well-known names; any
result code other than 0 (including a missing one) yields a failure
outcome that carries the gateway's descriptive reason. -/
theorem c9_parse_callback_outcome (cb : CallbackData) :
    ((parse_callback cb).success = true ↔ cb.stk.resultCode = some 0) ∧
      (parse_callback cb).result_description = cb.stk.resultDesc ∧
      (cb.stk.resultCode = some 0 →
        (parse_callback cb).status = "completed" ∧
          (parse_callback cb).amount = lastNamed "Amount" cb.stk.items ∧
          (parse_callback cb).receipt_number = lastNamed "MpesaReceiptNumber" cb.stk.items ∧
          (parse_callback cb).transaction_date = lastNamedStr "TransactionDate" cb.stk.items ∧
          (parse_callback cb).phone_number = lastNamedStr "PhoneNumber" cb.stk.items) ∧
      (∀ k : ℤ, cb.stk.resultCode = some k → k ≠ 0 →
        (parse_callback cb).success = false ∧ (parse_callback cb).status = "failed") := by
  unfold parse_callback
  by_cases h : cb.stk.resultCode = some 0
  · rw [if_pos h]
    have hm := metaFold_fields cb.stk.items
      { merchant_request_id := cb.stk.merchantRequestID
        checkout_request_id := cb.stk.checkoutRequestID
        result_code := cb.stk.resultCode
        result_description := cb.stk.resultDesc
        amount := none, receipt_number := none
        transaction_date := none, phone_number := none
        success := false, status := "" }
    refine ⟨by simp [h], ?_, fun _ => ⟨rfl, ?_, ?_, ?_, ?_⟩, ?_⟩
    · simp [hm.2.2.2.2.2.2.2.1]
    · simpa [lastNamed] using hm.1
    · simpa [lastNamed] using hm.2.1
    · simpa [lastNamedStr] using hm.2.2.1
    · simpa [lastNamedStr] using hm.2.2.2.1
    · intro k hk hk0
      rw [h] at hk
      exact absurd (Option.some.inj hk).symm hk0
  · rw [if_neg h]
    exact ⟨by simp [h], rfl, fun h0 => absurd h0 h, fun k hk hk0 => ⟨rfl, rfl⟩⟩

/-- A concrete successful `stkCallback` dict. -/
def sampleStk : StkCallback :=
  { merchantRequestID := some "29115-34620561-1"
    checkoutRequestID := some "ws_CO_191220191020363925"
    resultCode := some 0
    resultDesc := some "The service request is processed successfully."
    items :=
      [⟨some "Amount", some (.num 395)⟩,
       ⟨some "MpesaReceiptNumber", some (.str "NLJ7RT61SV")⟩,
       ⟨some "TransactionDate", some (.num 20191219102115)⟩,
       ⟨some "PhoneNumber", some (.num 254708374149)⟩] }

/-- A concrete successful gateway callback. -/
def sampleCb : CallbackData :=
  { body := some { stkCallback := some sampleStk } }

/-- Witness for C9 at the concrete successful callback. -/
theorem c9_parse_callback_outcome_witness :
    (parse_callback sampleCb).status = "completed" ∧
      (parse_callback sampleCb).amount = lastNamed "Amount" sampleCb.stk.items ∧
      (parse_callback sampleCb).receipt_number =
        lastNamed "MpesaReceiptNumber" sampleCb.stk.items :=
  ⟨((c9_parse_callback_outcome sampleCb).2.2.1 rfl).1,
    ((c9_parse_callback_outcome sampleCb).2.2.1 rfl).2.1,
    ((c9_parse_callback_outcome sampleCb).2.2.1 rfl).2.2.1⟩

/-- C2: reconciliation is idempotent.  Starting from a PROCESSING payment
with no side effects recorded, delivering the same successful callback
`n ≥ 1` times leaves the payment PAID with the auto-assignment trigger and
the payment-confirmation notification each having fired exactly once, and
any further delivery of the callback is a no-op success returning the same
terminal result without touching the state. -/
theorem c2_reconcile_idempotent (s0 : ReconState) (cb : CallbackData)
    (hs : s0.paymentStatus = .PROCESSING) (ht : s0.assignTriggered = false)
    (ha : s0.assignCount = 0) (hn : s0.notifCount = 0)
    (hp : (parse_callback cb).success = true) :
    ∀ n : ℕ, 1 ≤ n →
      (reconcileIter cb s0 n).paymentStatus = .PAID ∧
        (reconcileIter cb s0 n).assignCount = 1 ∧
        (reconcileIter cb s0 n).notifCount = 1 ∧
        reconcile (reconcileIter cb s0 n) cb = ((reconcile s0 cb).1, reconcileIter cb s0 n) := by
  set p := parse_callback cb with hpdef
  set s1 : ReconState :=
    { paymentStatus := .PAID, storedOutcome := some p, assignTriggered := true,
      assignCount := 1, notifCount := 1 } with hs1
  have hfirst : reconcile s0 cb = (p, s1) := by
    unfold reconcile
    rw [hs]
    simp only [PayStatus.isTerminal, Bool.false_eq_true, if_false, ← hpdef, hp, if_pos, ht]
    simp [hs1, ha, hn]
  have hagain : reconcile s1 cb = (p, s1) := by
    unfold reconcile
    simp [hs1, PayStatus.isTerminal]
  have hiter : ∀ n : ℕ, 1 ≤ n → reconcileIter cb s0 n = s1 := by
    intro n hn1
    induction n with
    | zero => omega
    | succ m ih =>
      rcases Nat.eq_or_lt_of_le hn1 with h1 | h1
      · have hm : m = 0 := by omega
        subst hm
        show (reconcile (reconcileIter cb s0 0) cb).2 = s1
        show (reconcile s0 cb).2 = s1
        rw [hfirst]
      · have hm : 1 ≤ m := by omega
        show (reconcile (reconcileIter cb s0 m) cb).2 = s1
        rw [ih hm, hagain]
  intro n hn1
  rw [hiter n hn1, hfirst]
  exact ⟨rfl, rfl, rfl, hagain⟩

/-- The initial reconciliation state of a freshly acknowledged payment. -/
def freshPayment : ReconState :=
  { paymentStatus := .PROCESSING, storedOutcome := none, assignTriggered := false,
    assignCount := 0, notifCount := 0 }

/-- Witness for C2: the concrete successful callback delivered twice to a
fresh PROCESSING payment. -/
theorem c2_reconcile_idempotent_witness :
    (reconcileIter sampleCb freshPayment 2).paymentStatus = .PAID ∧
      (reconcileIter sampleCb freshPayment 2).assignCount = 1 ∧
      (reconcileIter sampleCb freshPayment 2).notifCount = 1 ∧
      reconcile (reconcileIter sampleCb freshPayment 2) sampleCb =
        ((reconcile freshPayment sampleCb).1, reconcileIter sampleCb freshPayment 2) :=
  c2_reconcile_idempotent freshPayment sampleCb rfl rfl rfl rfl (by decide) 2 (by norm_num)

/-- C10: over valid coordinates the haversine distance is a total function
with no error path — both square-root arguments are nonnegative since
`0 ≤ a ≤ 1` — always returns a (finite) nonnegative real, and returns 0
for identical coordinate pairs. -/
theorem c10_haversine_total (lat1 lon1 lat2 lon2 : ℝ)
    (h1 : -90 ≤ lat1 ∧ lat1 ≤ 90) (h2 : -180 ≤ lon1 ∧ lon1 ≤ 180)
    (h3 : -90 ≤ lat2 ∧ lat2 ≤ 90) (h4 : -180 ≤ lon2 ∧ lon2 ≤ 180) :
    0 ≤ haversine_distance_km lat1 lon1 lat2 lon2 ∧
      (0 ≤ haversine_a lat1 lon1 lat2 lon2 ∧ haversine_a lat1 lon1 lat2 lon2 ≤ 1) ∧
      (lat1 = lat2 ∧ lon1 = lon2 → haversine_distance_km lat1 lon1 lat2 lon2 = 0) := by
  refine ⟨haversine_nonneg _ _ _ _,
    ⟨haversine_a_nonneg _ _ _ _, haversine_a_le_one _ _ _ _⟩, ?_⟩
  rintro ⟨hlat, hlon⟩
  subst hlat
  subst hlon
  exact haversine_self lat1 lon1

/-- Witness for C10 at the coordinate pair (0,0), (0,0). -/
theorem c10_haversine_total_witness :
    0 ≤ haversine_distance_km 0 0 0 0 ∧
      (0 ≤ haversine_a 0 0 0 0 ∧ haversine_a 0 0 0 0 ≤ 1) ∧
      ((0 : ℝ) = 0 ∧ (0 : ℝ) = 0 → haversine_distance_km 0 0 0 0 = 0) :=
  c10_haversine_total 0 0 0 0 (by norm_num) (by norm_num) (by norm_num) (by norm_num)

/-- A candidate beyond range, or out of range of the best so far, leaves
the loop accumulator untouched. -/
theorem assignStep_skip (plat plng maxd : ℝ) (acc : Option CourierProfile × Option ℝ)
    (c : CourierProfile) (h : ¬ courier_distance plat plng c ≤ maxd) :
    assignStep plat plng maxd acc c = acc := by
  rcases acc with ⟨b?, d?⟩
  cases d? with
  | none => exact if_neg h
  | some nd => exact if_neg (fun hc => h hc.1)

/-- Once the loop holds a best candidate, later candidates that are not
strictly closer (within range) never displace it. -/
theorem assignFold_keep (plat plng maxd : ℝ) :
    ∀ (l : List CourierProfile) (b : CourierProfile) (db : ℝ),
      (∀ c ∈ l, ¬(courier_distance plat plng c ≤ maxd ∧ courier_distance plat plng c < db)) →
      l.foldl (assignStep plat plng maxd) (some b, some db) = (some b, some db) := by
  intro l
  induction l with
  | nil => intro b db _; rfl
  | cons c rest ih =>
    intro b db h
    have hstep : assignStep plat plng maxd (some b, some db) c = (some b, some db) :=
      if_neg (h c (List.mem_cons_self c rest))
    rw [List.foldl_cons, hstep]
    exact ih b db (fun c' hc' => h c' (List.mem_cons_of_mem c hc'))

/-- Loop invariant: starting from an in-range best candidate, the loop ends
on an in-range candidate that is a distance minimizer over the start and
everything in range seen since. -/
theorem assignFold_min (plat plng maxd : ℝ) :
    ∀ (l : List CourierProfile) (b : CourierProfile),
      courier_distance plat plng b ≤ maxd →
      ∃ b', l.foldl (assignStep plat plng maxd)
          (some b, some (courier_distance plat plng b)) =
            (some b', some (courier_distance plat plng b')) ∧
        courier_distance plat plng b' ≤ maxd ∧
        courier_distance plat plng b' ≤ courier_distance plat plng b ∧
        (b' = b ∨ b' ∈ l) ∧
        (∀ c ∈ l, courier_distance plat plng c ≤ maxd →
          courier_distance plat plng b' ≤ courier_distance plat plng c) := by
  intro l
  induction l with
  | nil =>
    intro b hb
    exact ⟨b, rfl, hb, le_refl _, Or.inl rfl, by simp⟩
  | cons c rest ih =>
    intro b hb
    by_cases hcond : courier_distance plat plng c ≤ maxd ∧
        courier_distance plat plng c < courier_distance plat plng b
    · have hstep : assignStep plat plng maxd
          (some b, some (courier_distance plat plng b)) c =
            (some c, some (courier_distance plat plng c)) := if_pos hcond
      obtain ⟨b', hr, h1, h2, h3, h4⟩ := ih c hcond.1
      refine ⟨b', ?_, h1, le_trans h2 (le_of_lt hcond.2), ?_, ?_⟩
      · rw [List.foldl_cons, hstep]; exact hr
      · rcases h3 with h3 | h3
        · exact Or.inr (h3 ▸ List.mem_cons_self c rest)
        · exact Or.inr (List.mem_cons_of_mem c h3)
      · intro x hx hxq
        rcases List.mem_cons.mp hx with rfl | hxr
        · exact h2
        · exact h4 x hxr hxq
    · have hstep : assignStep plat plng maxd
          (some b, some (courier_distance plat plng b)) c =
            (some b, some (courier_distance plat plng b)) := if_neg hcond
      obtain ⟨b', hr, h1, h2, h3, h4⟩ := ih b hb
      refine ⟨b', ?_, h1, h2, ?_, ?_⟩
      · rw [List.foldl_cons, hstep]; exact hr
      · rcases h3 with h3 | h3
        · exact Or.inl h3
        · exact Or.inr (List.mem_cons_of_mem c h3)
      · intro x hx hxq
        rcases List.mem_cons.mp hx with rfl | hxr
        · exact le_trans h2 (not_lt.mp (fun hlt => hcond ⟨hxq, hlt⟩))
        · exact h4 x hxr hxq

/-- Full characterization of the candidate loop started empty: it returns
nobody exactly when nobody is in range, and otherwise returns an in-range
distance minimizer together with its distance. -/
theorem findNearest_fold_spec (plat plng maxd : ℝ) :
    ∀ l : List CourierProfile,
      ((l.foldl (assignStep plat plng maxd) (none, none)).1 = none ↔
        ∀ c ∈ l, ¬ courier_distance plat plng c ≤ maxd) ∧
      (∀ c0, (l.foldl (assignStep plat plng maxd) (none, none)).1 = some c0 →
        c0 ∈ l ∧
          (l.foldl (assignStep plat plng maxd) (none, none)).2 =
            some (courier_distance plat plng c0) ∧
          courier_distance plat plng c0 ≤ maxd ∧
          ∀ c' ∈ l, courier_distance plat plng c' ≤ maxd →
            courier_distance plat plng c0 ≤ courier_distance plat plng c') := by
  intro l
  induction l with
  | nil =>
    refine ⟨⟨fun _ => by simp, fun _ => rfl⟩, fun c0 h0 => by cases h0⟩
  | cons c rest ih =>
    by_cases hc : courier_distance plat plng c ≤ maxd
    · have hstep : assignStep plat plng maxd (none, none) c =
          (some c, some (courier_distance plat plng c)) := if_pos hc
      obtain ⟨b', hr, h1, h2, h3, h4⟩ := assignFold_min plat plng maxd rest c hc
      have hfold : (c :: rest).foldl (assignStep plat plng maxd) (none, none) =
          (some b', some (courier_distance plat plng b')) := by
        rw [List.foldl_cons, hstep]; exact hr
      rw [hfold]
      constructor
      · constructor
        · intro habs; cases habs
        · intro hall; exact absurd hc (hall c (List.mem_cons_self c rest))
      · intro c0 h0
        have hb : b' = c0 := Option.some.inj h0
        subst hb
        refine ⟨?_, rfl, h1, ?_⟩
        · rcases h3 with h3 | h3
          · exact h3 ▸ List.mem_cons_self c rest
          · exact List.mem_cons_of_mem c h3
        · intro x hx hxq
          rcases List.mem_cons.mp hx with rfl | hxr
          · exact h2
          · exact h4 x hxr hxq
    · have hstep : assignStep plat plng maxd (none, none) c = (none, none) :=
        assignStep_skip plat plng maxd (none, none) c hc
      have hfold : (c :: rest).foldl (assignStep plat plng maxd) (none, none) =
          rest.foldl (assignStep plat plng maxd) (none, none) := by
        rw [List.foldl_cons, hstep]
      rw [hfold]
      constructor
      · constructor
        · intro h x hx
          rcases List.mem_cons.mp hx with rfl | hxr
          · exact hc
          · exact ih.1.mp h x hxr
        · intro hall
          exact ih.1.mpr (fun x hx => hall x (List.mem_cons_of_mem c hx))
      · intro c0 h0
        obtain ⟨hm, h2', h3', h4'⟩ := ih.2 c0 h0
        refine ⟨List.mem_cons_of_mem c hm, h2', h3', ?_⟩
        intro x hx hxq
        rcases List.mem_cons.mp hx with rfl | hxr
        · exact absurd hxq hc
        · exact h4' x hxr hxq

/-- A candidate courier with id 2, listed first by the query, positioned
exactly at the pickup point. -/
def tieCourierFirst : CourierProfile :=
  { id := 2, user_id := 2, is_available := true, is_verified := true,
    current_latitude := some 0, current_longitude := some 0 }

/-- A candidate courier with the lower id 1, listed second by the query,
at the same position. -/
def tieCourierSecond : CourierProfile :=
  { id := 1, user_id := 1, is_available := true, is_verified := true,
    current_latitude := some 0, current_longitude := some 0 }

/-- C5 fails as stated: with two eligible candidates at exactly the same
distance (both at the pickup point), the loop keeps the first one the query
returned (id 2) — the strict `<` comparison never replaces it — instead of
breaking the tie toward the lowest id (id 1). -/
theorem c5_tie_counterexample :
    courier_distance 0 0 tieCourierFirst = courier_distance 0 0 tieCourierSecond ∧
      tieCourierSecond.id < tieCourierFirst.id ∧
      (find_nearest_available_courier 0 0 [tieCourierFirst, tieCourierSecond] 20).1 =
        some tieCourierFirst := by
  have hdA : courier_distance 0 0 tieCourierFirst = 0 := haversine_self 0 0
  have hdB : courier_distance 0 0 tieCourierSecond = 0 := haversine_self 0 0
  refine ⟨hdA.trans hdB.symm, by norm_num [tieCourierFirst, tieCourierSecond], ?_⟩
  have hstep1 : assignStep 0 0 20 (none, none) tieCourierFirst =
      (some tieCourierFirst, some (courier_distance 0 0 tieCourierFirst)) :=
    if_pos (by rw [hdA]; norm_num)
  have hstep2 : assignStep 0 0 20
      (some tieCourierFirst, some (courier_distance 0 0 tieCourierFirst)) tieCourierSecond =
      (some tieCourierFirst, some (courier_distance 0 0 tieCourierFirst)) := by
    refine if_neg ?_
    rintro ⟨-, hlt⟩
    rw [hdA, hdB] at hlt
    exact lt_irrefl 0 hlt
  have hres : find_nearest_available_courier 0 0 [tieCourierFirst, tieCourierSecond] 20 =
      (some tieCourierFirst, some (courier_distance 0 0 tieCourierFirst)) := by
    show [tieCourierFirst, tieCourierSecond].foldl (assignStep 0 0 20) (none, none) = _
    rw [List.foldl_cons, hstep1, List.foldl_cons, hstep2, List.foldl_nil]
  rw [hres]

/-- C5 amended: among candidates that are available, verified, and have a
reported location, the loop selects an in-range (≤ max_distance_km,
default 20) candidate of minimal haversine distance — but distance ties go
to the candidate the (unordered) query listed first, not to the lowest id;
when no candidate is in range it reports no courier, and
`auto_assign_courier` then fails with "No available courier found",
returning the PENDING order unchanged with no notifications or emails. -/
theorem c5_nearest_selection :
    ∀ (plat plng maxd : ℝ) (profiles : List CourierProfile),
      ((find_nearest_available_courier plat plng profiles maxd).1 = none ↔
        ∀ c ∈ eligible_profiles profiles, ¬ courier_distance plat plng c ≤ maxd) ∧
      (∀ c0, (find_nearest_available_courier plat plng profiles maxd).1 = some c0 →
        c0 ∈ eligible_profiles profiles ∧
          (find_nearest_available_courier plat plng profiles maxd).2 =
            some (courier_distance plat plng c0) ∧
          courier_distance plat plng c0 ≤ maxd ∧
          ∀ c' ∈ eligible_profiles profiles, courier_distance plat plng c' ≤ maxd →
            courier_distance plat plng c0 ≤ courier_distance plat plng c') ∧
      (∀ c rest, eligible_profiles profiles = c :: rest →
        courier_distance plat plng c ≤ maxd →
        (∀ c' ∈ rest, courier_distance plat plng c' ≤ maxd →
          courier_distance plat plng c ≤ courier_distance plat plng c') →
        find_nearest_available_courier plat plng profiles maxd =
          (some c, some (courier_distance plat plng c))) ∧
      (∀ (order : DeliveryOrder) (users : List DUser),
        order.courier_id = none → order.status = .PENDING →
        (find_nearest_available_courier order.pickup_lat order.pickup_lng profiles).1 = none →
        auto_assign_courier (some order) profiles users =
          (⟨false, some "No available courier found", none, none, none⟩,
            some order, [], [])) := by
  intro plat plng maxd profiles
  have hspec := findNearest_fold_spec plat plng maxd (eligible_profiles profiles)
  refine ⟨hspec.1, hspec.2, ?_, ?_⟩
  · intro c rest heq hcq hmin
    show (eligible_profiles profiles).foldl (assignStep plat plng maxd) (none, none) = _
    rw [heq, List.foldl_cons]
    have hstep : assignStep plat plng maxd (none, none) c =
        (some c, some (courier_distance plat plng c)) := if_pos hcq
    rw [hstep]
    exact assignFold_keep plat plng maxd rest c (courier_distance plat plng c)
      (fun c' hc' hcontra => absurd hcontra.2 (not_lt.mpr (hmin c' hc' hcontra.1)))
  · intro order users hcid hstat hnone
    rcases hpair : find_nearest_available_courier order.pickup_lat order.pickup_lng profiles
      with ⟨b?, d?⟩
    have hb : b? = none := by rw [hpair] at hnone; exact hnone
    subst hb
    simp [auto_assign_courier, hcid, hstat, hpair]

/-- Witness for C5 amended: with the lower-id courier listed first and both
candidates at the pickup point, the first-listed minimal candidate is
selected. -/
theorem c5_nearest_selection_witness :
    find_nearest_available_courier 0 0 [tieCourierSecond, tieCourierFirst] 20 =
      (some tieCourierSecond, some (courier_distance 0 0 tieCourierSecond)) := by
  have hd1 : courier_distance 0 0 tieCourierSecond = 0 := haversine_self 0 0
  have hd2 : courier_distance 0 0 tieCourierFirst = 0 := haversine_self 0 0
  exact (c5_nearest_selection 0 0 20 [tieCourierSecond, tieCourierFirst]).2.2.1
    tieCourierSecond [tieCourierFirst] rfl (by rw [hd1]; norm_num)
    (by
      intro c' hc' _
      have hc'' : c' = tieCourierFirst := by simpa using hc'
      simp only [hc'', hd1, hd2]
      exact le_refl 0)

end Deliveroo
